import Mathlib

/-!
Verification of the DMA memory-copy controller `Memcpy` from
`src/imxrt-hal/src/dma/memcpy.rs`.

The controller in the source wraps a hardware DMA `Channel` (an external
collaborator of the core, consumed as an opaque service) and two buffer
abstractions (`Source`, `Destination`).  The channel service and buffer
traits are repository code not present under `src/`, so they are modelled
from the specification (sections 3, 6 and 9 of the spec): the channel is a
record of registers manipulated only through the operations the spec lists,
and a buffer is a memory region together with observable counters recording
how often its pre-transfer preparation hook and post-transfer completion
hook have run.  Hardware nondeterminism (whether the engine flags an error
immediately after start) is passed to `start` as an explicit outcome value.

The `Memcpy` operations `new`, `take`, `transfer`, `is_complete`,
`complete`, `cancel` and `is_active` are translated line by line from the
source file.
-/

set_option autoImplicit false

/-- Modelled from the spec: a readable or writable memory region, given as a
base address and an element count (spec section 4.2 step 1: addresses plus
element counts).  Only the element count is computationally relevant to the
controller; the address is kept for faithfulness of address programming. -/
structure Region where
  addr : Nat
  len : Nat
deriving Repr, DecidableEq

/-- Modelled from the spec: a buffer value implementing the Source or
Destination capability (spec sections 3 and 9): it yields a memory region
and records invocations of its preparation and completion hooks in
observable counters, so that theorems can state which hooks a code path
runs. -/
structure Buf where
  region : Region
  preparations : Nat
  completions : Nat
deriving Repr, DecidableEq

/-- Modelled from the spec: `Source::source`, yielding the readable region. -/
def Buf.source (b : Buf) : Region :=
  b.region

/-- Modelled from the spec: `Destination::destination`, yielding the
writable region. -/
def Buf.destination (b : Buf) : Region :=
  b.region

/-- Modelled from the spec: the pre-transfer preparation hook of a source
buffer (for example cache maintenance); observable as a counter bump. -/
def Buf.prepare_source (b : Buf) : Buf :=
  { b with preparations := b.preparations + 1 }

/-- Modelled from the spec: the pre-transfer preparation hook of a
destination buffer; observable as a counter bump. -/
def Buf.prepare_destination (b : Buf) : Buf :=
  { b with preparations := b.preparations + 1 }

/-- Modelled from the spec: the post-transfer completion hook of a source
buffer; observable as a counter bump. -/
def Buf.complete_source (b : Buf) : Buf :=
  { b with completions := b.completions + 1 }

/-- Modelled from the spec: the post-transfer completion hook of a
destination buffer; observable as a counter bump. -/
def Buf.complete_destination (b : Buf) : Buf :=
  { b with completions := b.completions + 1 }

/-- Modelled from the spec: the hardware outcome of starting the channel,
namely whether the engine raises its error indicator immediately after the
arm-and-start sequence (spec section 4.2 step 7), and the raw structured
error status it latches in that case. -/
structure HwStart where
  raiseError : Bool
  status : Nat
deriving Repr, DecidableEq

/-- Modelled from the spec: the register state of one hardware DMA channel,
exposing exactly the operations of spec section 6.  The enable bit is
changed only by `set_enable`; the controller configures the channel with
disable-on-completion off (spec section 4.1), so completion does not clear
the enable bit. -/
structure Channel where
  enabled : Bool
  active : Bool
  completeFlag : Bool
  errorFlag : Bool
  errorStatusReg : Nat
  interruptOnCompletion : Bool
  interruptOnHalf : Bool
  triggerFromHardware : Option Nat
  disableOnCompletion : Bool
  sourceTransfer : Option Region
  destinationTransfer : Option Region
  minorLoopElements : Nat
  transferIterations : Nat
deriving Repr, DecidableEq

/-- Modelled from the spec: construction-time interrupt configuration. -/
def Channel.set_interrupt_on_completion (c : Channel) (b : Bool) : Channel :=
  { c with interruptOnCompletion := b }

/-- Modelled from the spec: construction-time interrupt configuration. -/
def Channel.set_interrupt_on_half (c : Channel) (b : Bool) : Channel :=
  { c with interruptOnHalf := b }

/-- Modelled from the spec: construction-time trigger configuration. -/
def Channel.set_trigger_from_hardware (c : Channel) (t : Option Nat) : Channel :=
  { c with triggerFromHardware := t }

/-- Modelled from the spec: construction-time auto-disable configuration. -/
def Channel.set_disable_on_completion (c : Channel) (b : Bool) : Channel :=
  { c with disableOnCompletion := b }

/-- Modelled from the spec: status query for the enable bit. -/
def Channel.is_enabled (c : Channel) : Bool :=
  c.enabled

/-- Modelled from the spec: status query for hardware activity. -/
def Channel.is_active (c : Channel) : Bool :=
  c.active

/-- Modelled from the spec: status query for the completion flag. -/
def Channel.is_complete (c : Channel) : Bool :=
  c.completeFlag

/-- Modelled from the spec: status query for the error indicator. -/
def Channel.is_error (c : Channel) : Bool :=
  c.errorFlag

/-- Modelled from the spec: source address programming. -/
def Channel.set_source_transfer (c : Channel) (r : Region) : Channel :=
  { c with sourceTransfer := some r }

/-- Modelled from the spec: destination address programming. -/
def Channel.set_destination_transfer (c : Channel) (r : Region) : Channel :=
  { c with destinationTransfer := some r }

/-- Modelled from the spec: minor-loop element-count programming. -/
def Channel.set_minor_loop_elements (c : Channel) (n : Nat) : Channel :=
  { c with minorLoopElements := n }

/-- Modelled from the spec: major-loop iteration-count programming. -/
def Channel.set_transfer_iterations (c : Channel) (n : Nat) : Channel :=
  { c with transferIterations := n }

/-- Modelled from the spec: write the enable bit. -/
def Channel.set_enable (c : Channel) (b : Bool) : Channel :=
  { c with enabled := b }

/-- Modelled from the spec: fire the channel.  The hardware either raises
the error indicator and latches the structured error status, or proceeds
and the channel becomes active.  Neither outcome touches the enable bit. -/
def Channel.start (c : Channel) (hw : HwStart) : Channel :=
  if hw.raiseError then
    { c with errorFlag := true, errorStatusReg := hw.status }
  else
    { c with active := true }

/-- Modelled from the spec: read the raw structured error status. -/
def Channel.error_status (c : Channel) : Nat :=
  c.errorStatusReg

/-- Modelled from the spec: clear the hardware error indicator. -/
def Channel.clear_error (c : Channel) : Channel :=
  { c with errorFlag := false }

/-- Modelled from the spec: clear the hardware completion flag. -/
def Channel.clear_complete (c : Channel) : Channel :=
  { c with completeFlag := false }

/-- The error type of `Memcpy::transfer`: `Error::ScheduledTransfer` for the
admission-control conflict, `Error::Setup(ErrorStatus)` for a hardware error
detected immediately after start.  The structured `ErrorStatus` wrapper over
the raw register value is modelled as the raw value itself. -/
inductive MError where
  | scheduledTransfer : MError
  | setup (es : Nat) : MError
deriving Repr, DecidableEq

/-- The result of `Memcpy::transfer`, mirroring
`Result<(), (S, D, Error<void::Void>)>`: success carries nothing, failure
returns both buffers together with the error. -/
inductive TransferResult where
  | ok : TransferResult
  | err (source destination : Buf) (e : MError) : TransferResult
deriving Repr, DecidableEq

/-- The `Memcpy` controller state: the exclusively owned channel and the
optional owned-buffers slot (`memcpy.rs` lines 49 to 53). -/
structure Memcpy where
  channel : Channel
  buffers : Option (Buf × Buf)
deriving Repr, DecidableEq

/-- `Memcpy::new` (`memcpy.rs` lines 61 to 71): configure the channel for
polling mode and start with no buffers owned. -/
def Memcpy.new (channel : Channel) : Memcpy :=
  let channel := channel.set_interrupt_on_completion false
  let channel := channel.set_interrupt_on_half false
  let channel := channel.set_trigger_from_hardware none
  let channel := channel.set_disable_on_completion false
  { channel := channel, buffers := none }

/-- `Memcpy::take` (`memcpy.rs` lines 74 to 76): destroy the controller and
return the underlying channel. -/
def Memcpy.take (m : Memcpy) : Channel :=
  m.channel

/-- `Memcpy::transfer` (`memcpy.rs` lines 85 to 121), translated line by
line.  The compiler fence at line 110 is a compile-time ordering directive
with no effect on the state and is not modelled.  The hardware outcome of
`start` is passed explicitly. -/
def Memcpy.transfer (m : Memcpy) (source destination : Buf) (hw : HwStart) :
    Memcpy × TransferResult :=
  if m.channel.is_enabled then
    (m, TransferResult.err source destination MError.scheduledTransfer)
  else
    let src := source.source
    let dst := destination.destination
    let ch := (m.channel.set_source_transfer src).set_destination_transfer dst
    let source := source.prepare_source
    let destination := destination.prepare_destination
    let length := min src.len dst.len
    let ch := (ch.set_minor_loop_elements length).set_transfer_iterations 1
    let ch := (ch.set_enable true).start hw
    if ch.is_error then
      let es := ch.error_status
      ({ channel := ch.clear_error, buffers := m.buffers },
        TransferResult.err source destination (MError.setup es))
    else
      ({ channel := ch, buffers := some (source, destination) },
        TransferResult.ok)

/-- `Memcpy::is_complete` (`memcpy.rs` lines 128 to 130). -/
def Memcpy.is_complete (m : Memcpy) : Bool :=
  m.channel.is_complete

/-- `Memcpy::cancel` (`memcpy.rs` lines 160 to 163): disable the channel and
take whatever the owned-buffers slot holds. -/
def Memcpy.cancel (m : Memcpy) : Memcpy × Option (Buf × Buf) :=
  ({ channel := m.channel.set_enable false, buffers := none }, m.buffers)

/-- `Memcpy::complete` (`memcpy.rs` lines 138 to 152): on a completed
transfer, clear the completion flag, disable the channel, run the completion
hooks on any owned pair and return it; otherwise fall through to `cancel`. -/
def Memcpy.complete (m : Memcpy) : Memcpy × Option (Buf × Buf) :=
  if m.is_complete then
    let ch := (m.channel.clear_complete).set_enable false
    match m.buffers with
    | some (source, destination) =>
        ({ channel := ch, buffers := none },
          some (source.complete_source, destination.complete_destination))
    | none => ({ channel := ch, buffers := none }, none)
  else
    m.cancel

/-- `Memcpy::is_active` (`memcpy.rs` lines 172 to 174). -/
def Memcpy.is_active (m : Memcpy) : Bool :=
  m.channel.is_active

/-- One step of the controller life after construction: a controller
operation, or an asynchronous hardware event.  `hwSetComplete` models the
DMA engine finishing a transfer (it raises the completion flag and drops
activity); `hwClearActive` models the engine going inactive, for example
after preemption.  Neither hardware event touches the enable bit, because
the controller configures the channel with disable-on-completion off. -/
inductive Op where
  | transferOp (source destination : Buf) (hw : HwStart) : Op
  | completeOp : Op
  | cancelOp : Op
  | hwSetComplete : Op
  | hwClearActive : Op
deriving Repr, DecidableEq

/-- Apply one operation to the controller state, discarding returned
values. -/
def Memcpy.stepOp (m : Memcpy) (op : Op) : Memcpy :=
  match op with
  | Op.transferOp s d hw => (m.transfer s d hw).1
  | Op.completeOp => m.complete.1
  | Op.cancelOp => m.cancel.1
  | Op.hwSetComplete =>
      { m with channel := { m.channel with completeFlag := true, active := false } }
  | Op.hwClearActive =>
      { m with channel := { m.channel with active := false } }

/-- Run a sequence of operations. -/
def Memcpy.runOps (m : Memcpy) : List Op → Memcpy
  | [] => m
  | op :: ops => Memcpy.runOps (m.stepOp op) ops

/-- Whether an operation, applied in the given state, returns the setup
failure error of `transfer`. -/
def Memcpy.opSetupError (m : Memcpy) (op : Op) : Bool :=
  match op with
  | Op.transferOp s d hw =>
      match (m.transfer s d hw).2 with
      | TransferResult.err _ _ (MError.setup _) => true
      | _ => false
  | _ => false

/-- Whether a run of operations is free of setup failures. -/
def Memcpy.setupFreeRun (m : Memcpy) : List Op → Bool
  | [] => true
  | op :: ops => !m.opSetupError op && Memcpy.setupFreeRun (m.stepOp op) ops

/-- The owned-buffers invariant of spec section 3: the slot is populated
exactly when the channel reports enabled as last observed by the
controller. -/
def Memcpy.linkInv (m : Memcpy) : Prop :=
  m.buffers.isSome = m.channel.enabled

instance (m : Memcpy) : Decidable m.linkInv :=
  inferInstanceAs (Decidable (m.buffers.isSome = m.channel.enabled))

/-- A concrete idle (disabled) channel used by witnesses and
counterexamples.  Unconfigured fields are deliberately nontrivial so that
evaluation exercises the construction-time configuration. -/
def chIdle : Channel :=
  { enabled := false, active := false, completeFlag := false, errorFlag := false,
    errorStatusReg := 0, interruptOnCompletion := true, interruptOnHalf := true,
    triggerFromHardware := some 3, disableOnCompletion := true,
    sourceTransfer := none, destinationTransfer := none,
    minorLoopElements := 0, transferIterations := 0 }

/-- A concrete enabled channel: a prior transfer is still outstanding. -/
def chBusy : Channel :=
  { chIdle with enabled := true, active := true }

/-- A concrete source buffer of 14 elements (the example of the spec). -/
def bufA : Buf :=
  { region := { addr := 100, len := 14 }, preparations := 0, completions := 0 }

/-- A concrete destination buffer of 12 elements (the example of the spec). -/
def bufB : Buf :=
  { region := { addr := 300, len := 12 }, preparations := 0, completions := 0 }

/-- Another concrete source buffer. -/
def bufC : Buf :=
  { region := { addr := 500, len := 8 }, preparations := 0, completions := 0 }

/-- Another concrete destination buffer. -/
def bufD : Buf :=
  { region := { addr := 700, len := 9 }, preparations := 0, completions := 0 }

/-- Hardware outcome: start proceeds without error. -/
def hwOk : HwStart :=
  { raiseError := false, status := 0 }

/-- Hardware outcome: the engine raises its error indicator immediately
after start, latching raw status 5. -/
def hwFail : HwStart :=
  { raiseError := true, status := 5 }

/-- A freshly constructed controller over the idle channel. -/
def mIdle : Memcpy :=
  Memcpy.new chIdle

/-- A controller whose channel is enabled while it owns a buffer pair: a
transfer is outstanding. -/
def mBusy : Memcpy :=
  { channel := chBusy, buffers := some (bufA, bufB) }

/-- A controller whose transfer has completed but is unacknowledged: the
completion flag is set, the channel still enabled, the pair still owned. -/
def mDone : Memcpy :=
  { channel := { chIdle with enabled := true, completeFlag := true },
    buffers := some (bufA, bufB) }

/-- Claim C2: if the channel reports enabled when `transfer` is called, the
call fails immediately with the `ScheduledTransfer` error, returns exactly
the source and destination values passed in, and changes neither the
channel configuration nor the owned-buffers slot. -/
theorem memcpy_C2_admission_conflict (m : Memcpy) (s d : Buf) (hw : HwStart)
    (h : m.channel.is_enabled = true) :
    m.transfer s d hw = (m, TransferResult.err s d MError.scheduledTransfer) := by
  simp [Memcpy.transfer, h]

/-- Witness for claim C2 at a concrete busy controller. -/
theorem memcpy_C2_witness :
    mBusy.channel.is_enabled = true ∧
    mBusy.transfer bufC bufD hwOk
      = (mBusy, TransferResult.err bufC bufD MError.scheduledTransfer) :=
  ⟨by decide, memcpy_C2_admission_conflict mBusy bufC bufD hwOk (by decide)⟩

/-- Claim C3: every admitted `transfer` call programs the minor-loop element
count to the minimum of the two region lengths, differing lengths not being
an error, and programs the major-loop iteration count to exactly one. -/
theorem memcpy_C3_min_length (m : Memcpy) (s d : Buf) (hw : HwStart)
    (h : m.channel.is_enabled = false) :
    (m.transfer s d hw).1.channel.minorLoopElements
      = min s.source.len d.destination.len ∧
    (m.transfer s d hw).1.channel.transferIterations = 1 := by
  simp only [Memcpy.transfer, h, Bool.false_eq_true, if_false]
  split <;>
    simp [Channel.set_source_transfer, Channel.set_destination_transfer,
      Channel.set_minor_loop_elements, Channel.set_transfer_iterations,
      Channel.set_enable, Channel.start, Channel.clear_error,
      Buf.source, Buf.destination] <;>
    split <;> simp

/-- Witness for claim C3: source length 14 and destination length 12 yield
a programmed element count of 12 and one iteration. -/
theorem memcpy_C3_witness :
    mIdle.channel.is_enabled = false ∧
    ((mIdle.transfer bufA bufB hwOk).1.channel.minorLoopElements
        = min bufA.source.len bufB.destination.len ∧
      (mIdle.transfer bufA bufB hwOk).1.channel.transferIterations = 1) :=
  ⟨by decide, memcpy_C3_min_length mIdle bufA bufB hwOk (by decide)⟩

/-- Claim C6: whenever `is_complete` is false, `complete` behaves
identically to `cancel`, as one function application: same resulting
controller state and same returned value. -/
theorem memcpy_C6_early_complete_is_cancel (m : Memcpy)
    (h : m.is_complete = false) :
    m.complete = m.cancel := by
  simp [Memcpy.complete, h]

/-- Witness for claim C6 at a controller with an in-flight transfer. -/
theorem memcpy_C6_witness :
    mBusy.is_complete = false ∧ mBusy.complete = mBusy.cancel :=
  ⟨by decide, memcpy_C6_early_complete_is_cancel mBusy (by decide)⟩

/-- Claim C8: `cancel` with no owned pair returns nothing, and consecutive
`cancel` calls after the first leave the controller state fixed and keep
returning nothing, for any number of iterations. -/
theorem memcpy_C8_cancel_noop (m : Memcpy) (n : Nat) (h : m.buffers = none) :
    m.cancel.2 = none ∧
    Nat.iterate (fun s : Memcpy => s.cancel.1) n m.cancel.1 = m.cancel.1 ∧
    (Nat.iterate (fun s : Memcpy => s.cancel.1) n m.cancel.1).cancel.2 = none := by
  have hfix : ∀ k : Nat,
      Nat.iterate (fun s : Memcpy => s.cancel.1) k m.cancel.1 = m.cancel.1 := by
    intro k
    induction k with
    | zero => rfl
    | succ k ih =>
        rw [Function.iterate_succ_apply', ih]
        simp [Memcpy.cancel, Channel.set_enable]
  refine ⟨by simp [Memcpy.cancel, h], hfix n, ?_⟩
  rw [hfix n]
  rfl

/-- Witness for claim C8 at the freshly constructed controller, iterating
three times. -/
theorem memcpy_C8_witness :
    mIdle.buffers = none ∧
    (mIdle.cancel.2 = none ∧
      Nat.iterate (fun s : Memcpy => s.cancel.1) 3 mIdle.cancel.1 = mIdle.cancel.1 ∧
      (Nat.iterate (fun s : Memcpy => s.cancel.1) 3 mIdle.cancel.1).cancel.2 = none) :=
  ⟨rfl, memcpy_C8_cancel_noop mIdle 3 rfl⟩

/-- Claim C9: `take` returns the channel exactly as it is, performing no
implicit cancellation and no disable, and the result does not depend on the
owned-buffers slot: any pair still held is dropped, not returned. -/
theorem memcpy_C9_take_returns_channel_as_is (c : Channel)
    (b : Option (Buf × Buf)) :
    Memcpy.take { channel := c, buffers := b } = c ∧
    (Memcpy.take { channel := c, buffers := b }).enabled = c.enabled := by
  exact ⟨rfl, rfl⟩

/-- Claim C10: on the cancel path the owned pair is returned exactly as
stored, so neither completion hook runs, and the hardware completion flag
is not cleared.  The `cancel` conjuncts hold for every controller state
`m`, in particular the completed-unacknowledged state where the completion
flag is set; the `complete` conjuncts concern any state `m2` in which
`is_complete` is false, where `complete` takes the cancel path. -/
theorem memcpy_C10_cancel_path_frame (m m2 : Memcpy) (h : m2.is_complete = false) :
    m.cancel.2 = m.buffers ∧
    m.cancel.1.channel.completeFlag = m.channel.completeFlag ∧
    m2.complete.2 = m2.buffers ∧
    m2.complete.1.channel.completeFlag = m2.channel.completeFlag := by
  refine ⟨rfl, rfl, ?_, ?_⟩ <;> simp [Memcpy.complete, h, Memcpy.cancel, Channel.set_enable]

/-- Witness for claim C10: `cancel` at the completed-unacknowledged
controller (completion flag set, pair owned) returns the stored pair with
its completion counters untouched and leaves the flag set; early `complete`
at an in-flight controller preserves the pair and the flag as well. -/
theorem memcpy_C10_witness :
    mBusy.is_complete = false ∧
    (mDone.cancel.2 = mDone.buffers ∧
      mDone.cancel.1.channel.completeFlag = mDone.channel.completeFlag ∧
      mBusy.complete.2 = mBusy.buffers ∧
      mBusy.complete.1.channel.completeFlag = mBusy.channel.completeFlag) :=
  ⟨by decide, memcpy_C10_cancel_path_frame mDone mBusy (by decide)⟩

/-- Helper: a `transfer` call on an enabled channel is rejected by
admission control, returning the state and both buffers unchanged. -/
theorem transfer_conflict_of_enabled (m : Memcpy) (s d : Buf) (hw : HwStart)
    (h : m.channel.enabled = true) :
    m.transfer s d hw = (m, TransferResult.err s d MError.scheduledTransfer) := by
  simp [Memcpy.transfer, Channel.is_enabled, h]

/-- Helper: an admitted `transfer` call never reports the admission
conflict: when the channel is disabled at entry, the result is either
success or a setup failure, never the `ScheduledTransfer` error. -/
theorem transfer_no_conflict_of_disabled (m : Memcpy) (s d : Buf) (hw : HwStart)
    (h : m.channel.is_enabled = false) :
    (m.transfer s d hw).2 ≠ TransferResult.err s d MError.scheduledTransfer := by
  simp only [Memcpy.transfer, h, Bool.false_eq_true, if_false]
  split <;> simp

/-- Claim C7: when `complete` is called with `is_complete` true, it clears
the completion flag, disables the channel, runs both post-transfer
completion hooks on an owned pair and returns it (or returns nothing if no
transfer was outstanding); afterwards the owned-buffers slot is empty and a
new `transfer` is admissible, never failing with the admission conflict. -/
theorem memcpy_C7_successful_complete (m : Memcpy) (s d : Buf) (hw : HwStart)
    (h : m.is_complete = true) :
    m.complete.1.buffers = none ∧
    m.complete.1.channel.completeFlag = false ∧
    m.complete.1.channel.enabled = false ∧
    m.complete.2 = m.buffers.map
      (fun p => (p.1.complete_source, p.2.complete_destination)) ∧
    (m.complete.1.transfer s d hw).2
      ≠ TransferResult.err s d MError.scheduledTransfer := by
  have hstate : m.complete.1
      = { channel := (m.channel.clear_complete).set_enable false,
          buffers := none } := by
    cases hb : m.buffers with
    | none => simp [Memcpy.complete, h, hb]
    | some p => cases p; simp [Memcpy.complete, h, hb]
  have hret : m.complete.2 = m.buffers.map
      (fun p => (p.1.complete_source, p.2.complete_destination)) := by
    cases hb : m.buffers with
    | none => simp [Memcpy.complete, h, hb]
    | some p => cases p; simp [Memcpy.complete, h, hb]
  have hen : m.complete.1.channel.is_enabled = false := by
    rw [hstate]; rfl
  refine ⟨by rw [hstate], by rw [hstate]; rfl, by rw [hstate]; rfl, hret, ?_⟩
  exact transfer_no_conflict_of_disabled _ s d hw hen

/-- Witness for claim C7 at a completed-unacknowledged controller. -/
theorem memcpy_C7_witness :
    mDone.is_complete = true ∧
    (mDone.complete.1.buffers = none ∧
      mDone.complete.1.channel.completeFlag = false ∧
      mDone.complete.1.channel.enabled = false ∧
      mDone.complete.2 = mDone.buffers.map
        (fun p => (p.1.complete_source, p.2.complete_destination)) ∧
      (mDone.complete.1.transfer bufC bufD hwOk).2
        ≠ TransferResult.err bufC bufD MError.scheduledTransfer) :=
  ⟨by decide, memcpy_C7_successful_complete mDone bufC bufD hwOk (by decide)⟩

/-- Claim C4: an admitted `transfer` on which the hardware raises its error
indicator at start returns both buffers together with a setup error
carrying the captured raw status, clears the hardware error flag, and
leaves the owned-buffers slot empty.  The hypothesis `hb` is the half of
the ownership invariant that every reachable controller state satisfies:
an owned pair implies an enabled channel. -/
theorem memcpy_C4_setup_failure (m : Memcpy) (s d : Buf) (hw : HwStart)
    (hb : m.buffers.isSome = true → m.channel.enabled = true)
    (hen : m.channel.is_enabled = false)
    (herr : hw.raiseError = true) :
    (m.transfer s d hw).2
      = TransferResult.err s.prepare_source d.prepare_destination
          (MError.setup hw.status) ∧
    (m.transfer s d hw).1.buffers = none ∧
    (m.transfer s d hw).1.channel.errorFlag = false := by
  have hen' : m.channel.enabled = false := hen
  have hnone : m.buffers = none := by
    cases hbuf : m.buffers with
    | none => rfl
    | some p =>
        have htrue := hb (by rw [hbuf]; rfl)
        simp [htrue] at hen'
  simp [Memcpy.transfer, hen', hnone, herr, Channel.is_enabled, Channel.is_error,
    Channel.start, Channel.error_status, Channel.clear_error, Channel.set_enable,
    Channel.set_minor_loop_elements, Channel.set_transfer_iterations,
    Channel.set_source_transfer, Channel.set_destination_transfer]

/-- Witness for claim C4 at the freshly constructed controller with a
failing start. -/
theorem memcpy_C4_witness :
    (mIdle.buffers.isSome = true → mIdle.channel.enabled = true) ∧
    mIdle.channel.is_enabled = false ∧
    hwFail.raiseError = true ∧
    ((mIdle.transfer bufA bufB hwFail).2
        = TransferResult.err bufA.prepare_source bufB.prepare_destination
            (MError.setup hwFail.status) ∧
      (mIdle.transfer bufA bufB hwFail).1.buffers = none ∧
      (mIdle.transfer bufA bufB hwFail).1.channel.errorFlag = false) :=
  ⟨by decide, by decide, by decide,
    memcpy_C4_setup_failure mIdle bufA bufB hwFail (by decide) (by decide) (by decide)⟩

/-- Counterexample to claim C5: starting from a fresh controller, a
transfer whose start raises a hardware error returns the setup failure, yet
the immediately following transfer call fails with the `ScheduledTransfer`
admission conflict, because the setup-failure path clears the error flag
but never disables the channel. -/
theorem memcpy_C5_counterexample :
    (mIdle.transfer bufA bufB hwFail).2
      = TransferResult.err bufA.prepare_source bufB.prepare_destination
          (MError.setup 5) ∧
    ((mIdle.transfer bufA bufB hwFail).1.transfer bufC bufD hwOk).2
      = TransferResult.err bufC bufD MError.scheduledTransfer := by
  decide

/-- Claim C5 as amended: after a transfer call returns the setup failure,
the channel remains enabled, so an immediately following transfer call
fails with the admission-conflict error; admissibility is restored by an
intervening `cancel`. -/
theorem memcpy_C5_amended (m : Memcpy) (s d s2 d2 : Buf) (hw hw2 : HwStart)
    (hen : m.channel.is_enabled = false) (herr : hw.raiseError = true) :
    (m.transfer s d hw).1.channel.enabled = true ∧
    ((m.transfer s d hw).1.transfer s2 d2 hw2).2
      = TransferResult.err s2 d2 MError.scheduledTransfer ∧
    ((m.transfer s d hw).1.cancel.1.transfer s2 d2 hw2).2
      ≠ TransferResult.err s2 d2 MError.scheduledTransfer := by
  have hen' : m.channel.enabled = false := hen
  have h1 : (m.transfer s d hw).1.channel.enabled = true := by
    simp [Memcpy.transfer, hen', herr, Channel.is_enabled, Channel.is_error,
      Channel.start, Channel.clear_error, Channel.set_enable,
      Channel.set_minor_loop_elements, Channel.set_transfer_iterations,
      Channel.set_source_transfer, Channel.set_destination_transfer]
  refine ⟨h1, ?_, ?_⟩
  · rw [transfer_conflict_of_enabled ((m.transfer s d hw).1) s2 d2 hw2 h1]
  · refine transfer_no_conflict_of_disabled _ s2 d2 hw2 ?_
    simp [Memcpy.cancel, Channel.set_enable, Channel.is_enabled]

/-- Witness for the amended claim C5 at the fresh controller. -/
theorem memcpy_C5_witness :
    mIdle.channel.is_enabled = false ∧
    hwFail.raiseError = true ∧
    ((mIdle.transfer bufA bufB hwFail).1.channel.enabled = true ∧
      ((mIdle.transfer bufA bufB hwFail).1.transfer bufC bufD hwOk).2
        = TransferResult.err bufC bufD MError.scheduledTransfer ∧
      ((mIdle.transfer bufA bufB hwFail).1.cancel.1.transfer bufC bufD hwOk).2
        ≠ TransferResult.err bufC bufD MError.scheduledTransfer) :=
  ⟨by decide, by decide,
    memcpy_C5_amended mIdle bufA bufB bufC bufD hwFail hwOk (by decide) (by decide)⟩

/-- Helper: a freshly constructed controller over a disabled channel
satisfies the owned-buffers invariant. -/
theorem linkInv_new (c : Channel) (hc : c.enabled = false) :
    (Memcpy.new c).linkInv := by
  simp [Memcpy.new, Memcpy.linkInv, Channel.set_interrupt_on_completion,
    Channel.set_interrupt_on_half, Channel.set_trigger_from_hardware,
    Channel.set_disable_on_completion, hc]

/-- Helper: every single operation that does not return a setup failure
preserves the owned-buffers invariant. -/
theorem linkInv_stepOp (m : Memcpy) (op : Op) (hinv : m.linkInv)
    (hfree : m.opSetupError op = false) : (m.stepOp op).linkInv := by
  cases op with
  | transferOp s d hw =>
      by_cases hen : m.channel.enabled = true
      · simpa [Memcpy.stepOp, Memcpy.transfer, Channel.is_enabled, hen,
          Memcpy.linkInv] using hinv
      · rw [Bool.not_eq_true] at hen
        by_cases herr : hw.raiseError = true
        · exfalso
          simp [Memcpy.opSetupError, Memcpy.transfer, Channel.is_enabled, hen,
            herr, Channel.is_error, Channel.start, Channel.set_enable,
            Channel.set_minor_loop_elements, Channel.set_transfer_iterations,
            Channel.set_source_transfer, Channel.set_destination_transfer] at hfree
        · rw [Bool.not_eq_true] at herr
          by_cases hflag : m.channel.errorFlag = true
          · exfalso
            simp [Memcpy.opSetupError, Memcpy.transfer, Channel.is_enabled, hen,
              herr, hflag, Channel.is_error, Channel.start, Channel.set_enable,
              Channel.set_minor_loop_elements, Channel.set_transfer_iterations,
              Channel.set_source_transfer, Channel.set_destination_transfer] at hfree
          · rw [Bool.not_eq_true] at hflag
            simp [Memcpy.stepOp, Memcpy.transfer, Channel.is_enabled, hen, herr,
              hflag, Channel.is_error, Channel.start, Channel.set_enable,
              Channel.set_minor_loop_elements, Channel.set_transfer_iterations,
              Channel.set_source_transfer, Channel.set_destination_transfer,
              Memcpy.linkInv]
  | completeOp =>
      by_cases hc : m.is_complete = true
      · cases hb : m.buffers with
        | none =>
            simp [Memcpy.stepOp, Memcpy.complete, hc, hb, Memcpy.linkInv,
              Channel.clear_complete, Channel.set_enable]
        | some p =>
            cases p
            simp [Memcpy.stepOp, Memcpy.complete, hc, hb, Memcpy.linkInv,
              Channel.clear_complete, Channel.set_enable]
      · rw [Bool.not_eq_true] at hc
        simp [Memcpy.stepOp, Memcpy.complete, hc, Memcpy.cancel, Memcpy.linkInv,
          Channel.set_enable]
  | cancelOp =>
      simp [Memcpy.stepOp, Memcpy.cancel, Memcpy.linkInv, Channel.set_enable]
  | hwSetComplete =>
      simpa [Memcpy.stepOp, Memcpy.linkInv] using hinv
  | hwClearActive =>
      simpa [Memcpy.stepOp, Memcpy.linkInv] using hinv

/-- Helper: the owned-buffers invariant is preserved along every
setup-failure-free run of operations. -/
theorem linkInv_runOps (ops : List Op) : ∀ m : Memcpy, m.linkInv →
    Memcpy.setupFreeRun m ops = true → (Memcpy.runOps m ops).linkInv := by
  induction ops with
  | nil => intro m h _; exact h
  | cons op ops ih =>
      intro m h hfree
      simp only [Memcpy.setupFreeRun, Bool.and_eq_true, Bool.not_eq_true'] at hfree
      exact ih _ (linkInv_stepOp m op h hfree.1) hfree.2

/-- Counterexample to claim C1: after constructing a controller over a
disabled channel and issuing one transfer whose start raises a hardware
error, the owned-buffers slot is empty while the channel still reports
enabled, so the populated-iff-enabled invariant fails. -/
theorem memcpy_C1_counterexample :
    ¬ Memcpy.linkInv (Memcpy.runOps mIdle [Op.transferOp bufA bufB hwFail]) := by
  decide

/-- A concrete setup-failure-free operation sequence exercising transfer,
hardware completion, acknowledgment, a second transfer and a cancel. -/
def opsDemo : List Op :=
  [Op.transferOp bufA bufB hwOk, Op.hwSetComplete, Op.completeOp,
    Op.transferOp bufC bufD hwOk, Op.cancelOp]

/-- Claim C1 as amended: for every sequence of operations starting from a
controller constructed over a disabled channel in which no transfer returns
a setup error, the owned-buffers slot is populated exactly when the channel
reports enabled. -/
theorem memcpy_C1_amended (c : Channel) (ops : List Op) (hc : c.enabled = false)
    (hfree : Memcpy.setupFreeRun (Memcpy.new c) ops = true) :
    Memcpy.linkInv (Memcpy.runOps (Memcpy.new c) ops) :=
  linkInv_runOps ops (Memcpy.new c) (linkInv_new c hc) hfree

/-- Witness for the amended claim C1 on a concrete five-operation run. -/
theorem memcpy_C1_witness :
    chIdle.enabled = false ∧
    Memcpy.setupFreeRun (Memcpy.new chIdle) opsDemo = true ∧
    Memcpy.linkInv (Memcpy.runOps (Memcpy.new chIdle) opsDemo) :=
  ⟨by decide, by decide, memcpy_C1_amended chIdle opsDemo (by decide) (by decide)⟩
